import Mathlib

/-!
Verification of the configuration-resolution-and-bootstrap pipeline of
`opennebula/framework/provider.go` (the `Configure` method of
`OpenNebulaProvider`), via a shallow embedding in Lean.

The terraform-plugin-framework value types (`types.String`, `types.Bool`)
are three-valued: null, unknown, or a concrete value; `ValueString` /
`ValueBool` return the zero value on null/unknown.  The process
environment is modelled as a record of the five variables read by
`Configure` (Go's `os.Getenv` returns `""` for an unset variable).
The external collaborators `goca` (the XML-RPC client and its
`SystemVersion` query) and `go-version` (`ver.NewVersion`) are modelled
as data carried by the request: the outcome of the version query and the
parse function are inputs of the embedded `Configure`.
-/

namespace OpenNebula

/-- Three-valued `types.String` of terraform-plugin-framework:
null, unknown, or a known string value. -/
inductive TString where
  | null
  | unknown
  | value (s : String)
deriving DecidableEq

/-- `types.String.IsNull`. -/
def TString.isNull : TString → Bool
  | TString.null => true
  | _ => false

/-- `types.String.IsUnknown`. -/
def TString.isUnknown : TString → Bool
  | TString.unknown => true
  | _ => false

/-- `types.String.ValueString`: the known value, or the zero value `""`
for null/unknown. -/
def TString.valueString : TString → String
  | TString.value s => s
  | _ => ""

/-- Three-valued `types.Bool` of terraform-plugin-framework. -/
inductive TBool where
  | null
  | unknown
  | value (b : Bool)
deriving DecidableEq

/-- `types.Bool.IsNull`. -/
def TBool.isNull : TBool → Bool
  | TBool.null => true
  | _ => false

/-- `types.Bool.IsUnknown`. -/
def TBool.isUnknown : TBool → Bool
  | TBool.unknown => true
  | _ => false

/-- `types.Bool.ValueBool`: the known value, or the zero value `false`
for null/unknown. -/
def TBool.valueBool : TBool → Bool
  | TBool.value b => b
  | _ => false

/-- Severity of a terraform diagnostic. -/
inductive Severity where
  | error
  | warning
deriving DecidableEq

/-- A terraform diagnostic.  `AddAttributeError` yields severity `error`
with `path = some root`, `AddError` yields severity `error` with
`path = none`. -/
structure Diagnostic where
  severity : Severity
  path : Option String
  summary : String
  detail : String
deriving DecidableEq

/-- `Diagnostics.HasError`: some diagnostic has error severity. -/
def hasError (l : List Diagnostic) : Bool :=
  l.any (fun d => d.severity == Severity.error)

/-- The five environment variables read by `Configure`
(provider.go lines 138-143); `os.Getenv` gives `""` when unset. -/
structure Env where
  OPENNEBULA_ENDPOINT : String
  OPENNEBULA_FLOW_ENDPOINT : String
  OPENNEBULA_USERNAME : String
  OPENNEBULA_PASSWORD : String
  OPENNEBULA_INSECURE : String
deriving DecidableEq

/-- `strconv.ParseBool`: accepts exactly the canonical boolean literals
1, t, T, TRUE, true, True, 0, f, F, FALSE, false, False. -/
def parseBool (s : String) : Except Unit Bool :=
  if s = "1" ∨ s = "t" ∨ s = "T" ∨ s = "TRUE" ∨ s = "true" ∨ s = "True" then
    Except.ok true
  else if s = "0" ∨ s = "f" ∨ s = "F" ∨ s = "FALSE" ∨ s = "false" ∨ s = "False" then
    Except.ok false
  else
    Except.error ()

/-- One element of the `default_tags` set: the decode outcome of the
block in the loop of provider.go lines 262-274.  `decodeErr` models a
failing `ToTerraformValue`, `convertErr` a failing `element.As(&tags)`,
and `ok` carries the decoded tag entries of the block in order. -/
inductive TagBlock where
  | decodeErr (msg : String)
  | convertErr (msg : String)
  | ok (entries : List (String × String))
deriving DecidableEq

/-- The canonical tag mapping (Go `map[string]string`), as a lookup
function from tag name to optional tag value. -/
def TagMap : Type := String → Option String

/-- The empty tag mapping. -/
def emptyTagMap : TagMap := fun _ => none

/-- Modelled from the spec: the merge performed by decoding one valid
`default_tags` block into the accumulated `DefaultTags` value
(the `element.As(&tags)` step of provider.go line 269, whose
`DefaultTags.FromTerraformValue` implementation is not under `src/`).
Per the spec, a later entry overwrites an earlier entry on key
collision (last-wins). -/
def mergeTags (acc : TagMap) (m : List (String × String)) : TagMap :=
  m.foldl (fun a p => fun k => if p.1 == k then some p.2 else a k) acc

/-- The `default_tags` aggregation loop of provider.go lines 262-279:
iterate the declared blocks in order; a block whose decode or
conversion fails is skipped; a valid block is merged into the
accumulator. -/
def aggregateTags (blocks : List TagBlock) : TagMap :=
  blocks.foldl
    (fun acc b =>
      match b with
      | TagBlock.decodeErr _ => acc
      | TagBlock.convertErr _ => acc
      | TagBlock.ok m => mergeTags acc m)
    emptyTagMap

/-- Per-key lookup inside one block's entry list: the last entry with
the given key wins. -/
def blockLookup : List (String × String) → String → Option String
  | [], _ => none
  | p :: rest, k =>
    match blockLookup rest k with
    | some v => some v
    | none => if p.1 == k then some p.2 else none

/-- The specification-side per-key reading of the aggregation: the value
of a key is the one from the last successfully decoded block that
contains the key. -/
def specLookup : List TagBlock → String → Option String
  | [], _ => none
  | b :: rest, k =>
    match specLookup rest k with
    | some v => some v
    | none =>
      match b with
      | TagBlock.ok m => blockLookup m k
      | _ => none

/-- `ver.Version` of go-version, kept opaque: only constructed by the
request's parse function. -/
structure GoVersion where
  raw : String
deriving DecidableEq

/-- The primary goca client configuration: `goca.NewConfig(username,
password, endpoint)` plus the transport's `InsecureSkipVerify` flag
(provider.go lines 215-223). -/
structure ClientConfig where
  username : String
  password : String
  endpoint : String
  insecure : Bool
deriving DecidableEq

/-- The flow client configuration: `goca.NewFlowConfig(username,
password, flowEndpoint)` (provider.go lines 252-255). -/
structure FlowConfig where
  username : String
  password : String
  endpoint : String
deriving DecidableEq

/-- The controller composition of provider.go lines 251-260: either the
plain controller around the primary client, or the generic controller
around the primary client and a flow client. -/
inductive Controller where
  | plain (client : ClientConfig)
  | withFlow (client : ClientConfig) (flow : FlowConfig)
deriving DecidableEq

/-- The primary client configuration of a controller. -/
def Controller.client : Controller → ClientConfig
  | Controller.plain c => c
  | Controller.withFlow c _ => c

/-- The `config.Provider` session record filled in provider.go lines
244-279: negotiated version, composed controller, default tags. -/
structure Provider where
  oneVersion : GoVersion
  controller : Controller
  defaultTags : TagMap

/-- The declared provider configuration `opennebulaProviderModel`
(provider.go lines 40-47). -/
structure opennebulaProviderModel where
  Endpoint : TString
  FlowEndpoint : TString
  Username : TString
  Password : TString
  Insecure : TBool
  DefaultTags : List TagBlock

/-- Input of the embedded `Configure`: the diagnostics produced by
`req.Config.Get` together with the decoded model, the process
environment, and the outcomes of the external goca / go-version
calls. -/
structure ConfigureRequest where
  decodeDiags : List Diagnostic
  config : opennebulaProviderModel
  env : Env
  systemVersion : Except String String
  newVersion : String → Except String GoVersion

/-- Output of the embedded `Configure`: accumulated diagnostics and the
data assigned to `resp.DataSourceData` / `resp.ResourceData`. -/
structure ConfigureResponse where
  diagnostics : List Diagnostic
  dataSourceData : Option Provider
  resourceData : Option Provider

/-- Diagnostic of provider.go lines 104-111. -/
def unknownEndpointDiag : Diagnostic :=
  { severity := Severity.error
    path := some "endpoint"
    summary := "Unknown OpenNebula XML-RPC API endpoint"
    detail := "The provider cannot create the OpenNebula XML-RPC client as there is an unknown configuration value for the OpenNebula API endpoint. Either target apply the source of the value first, set the value statically in the configuration, or use the OPENNEBULA_ENDPOINT environment variable." }

/-- Diagnostic of provider.go lines 113-120. -/
def unknownUsernameDiag : Diagnostic :=
  { severity := Severity.error
    path := some "username"
    summary := "Unknown OpenNebula XML-RPC API username"
    detail := "The provider cannot create the OpenNebula XML-RPC client as there is an unknown configuration value for the OpenNebula API username. Either target apply the source of the value first, set the value statically in the configuration, or use the OPENNEBULA_USERNAME environment variable." }

/-- Diagnostic of provider.go lines 122-129. -/
def unknownPasswordDiag : Diagnostic :=
  { severity := Severity.error
    path := some "password"
    summary := "Unknown OpenNebula XML-RPC API password"
    detail := "The provider cannot create the OpenNebula XML-RPC client as there is an unknown configuration value for the OpenNebula API password. Either target apply the source of the value first, set the value statically in the configuration, or use the OPENNEBULA_PASSWORD environment variable." }

/-- Diagnostic of provider.go lines 150-154. -/
def insecureParseDiag : Diagnostic :=
  { severity := Severity.error
    path := some "insecure"
    summary := "Failed to parse boolean value from the OPENNEBULA_INSECURE environment variable"
    detail := "The provider cannot create the OpenNebula XML-RPC client as there is an unknown configuration value for the OPENNEBULA_INSECURE environment variable." }

/-- Diagnostic of provider.go lines 181-189. -/
def missingEndpointDiag : Diagnostic :=
  { severity := Severity.error
    path := some "endpoint"
    summary := "Missing OpenNebula XML-RPC endpoint"
    detail := "The provider cannot create the OpenNebula XML-RPC client as there is a missing or empty value for the OpenNebula API endpoint. Set the endpoint value in the configuration or use the OPENNEBULA_ENDPOINT environment variable. If either is already set, ensure the value is not empty." }

/-- Diagnostic of provider.go lines 191-199. -/
def missingUsernameDiag : Diagnostic :=
  { severity := Severity.error
    path := some "username"
    summary := "Missing OpenNebula account username"
    detail := "The provider cannot create the OpenNebula XML-RPC client as there is a missing or empty value for the OpenNebula username. Set the endpoint value in the configuration or use the OPENNEBULA_USERNAME environment variable. If either is already set, ensure the value is not empty." }

/-- Diagnostic of provider.go lines 201-209.  The source passes
`path.Root("endpoint")` here, not `path.Root("password")`. -/
def missingPasswordDiag : Diagnostic :=
  { severity := Severity.error
    path := some "endpoint"
    summary := "Missing OpenNebula account password"
    detail := "The provider cannot create the OpenNebula XML-RPC client as there is a missing or empty value for the OpenNebula password. Set the endpoint value in the configuration or use the OPENNEBULA_PASSWORD environment variable. If either is already set, ensure the value is not empty." }

/-- Diagnostic of provider.go lines 227-230, carrying the error of the
`SystemVersion` query. -/
def versionQueryDiag (e : String) : Diagnostic :=
  { severity := Severity.error
    path := none
    summary := "Failed to get OpenNebula release number"
    detail := e }

/-- Diagnostic of provider.go lines 235-238, carrying the error of
`ver.NewVersion`. -/
def versionParseDiag (e : String) : Diagnostic :=
  { severity := Severity.error
    path := none
    summary := "Failed to parse OpenNebula version"
    detail := e }

/-- The unknown-value diagnostics of provider.go lines 104-129, in
source order: only endpoint, username and password are checked. -/
def unknownDiags (config : opennebulaProviderModel) : List Diagnostic :=
  (if config.Endpoint.isUnknown then [unknownEndpointDiag] else [])
    ++ (if config.Username.isUnknown then [unknownUsernameDiag] else [])
    ++ (if config.Password.isUnknown then [unknownPasswordDiag] else [])

/-- The diagnostics of the `OPENNEBULA_INSECURE` parse of provider.go
lines 143-156: a non-empty unparsable value yields one diagnostic. -/
def insecureEnvDiags (env : Env) : List Diagnostic :=
  if 0 < env.OPENNEBULA_INSECURE.length then
    match parseBool env.OPENNEBULA_INSECURE with
    | Except.ok _ => []
    | Except.error _ => [insecureParseDiag]
  else []

/-- The boolean obtained from `OPENNEBULA_INSECURE` in provider.go lines
143-156: `false` when unset; `strconv.ParseBool` otherwise, which
returns `false` together with its error on an unparsable value. -/
def insecureEnvValue (env : Env) : Bool :=
  if 0 < env.OPENNEBULA_INSECURE.length then
    match parseBool env.OPENNEBULA_INSECURE with
    | Except.ok b => b
    | Except.error _ => false
  else false

/-- Resolution of the endpoint, provider.go lines 138 and 158-160:
declared value if non-null, else environment. -/
def resolvedEndpoint (config : opennebulaProviderModel) (env : Env) : String :=
  if !config.Endpoint.isNull then config.Endpoint.valueString
  else env.OPENNEBULA_ENDPOINT

/-- Resolution of the flow endpoint, provider.go lines 139 and 162-164.
The source reads `config.Endpoint` here (not `config.FlowEndpoint`):
a non-null declared endpoint overrides the
`OPENNEBULA_FLOW_ENDPOINT` environment value, and the declared
`flow_endpoint` field is never consulted. -/
def resolvedFlowEndpoint (config : opennebulaProviderModel) (env : Env) : String :=
  if !config.Endpoint.isNull then config.Endpoint.valueString
  else env.OPENNEBULA_FLOW_ENDPOINT

/-- Resolution of the username, provider.go lines 140 and 166-168. -/
def resolvedUsername (config : opennebulaProviderModel) (env : Env) : String :=
  if !config.Username.isNull then config.Username.valueString
  else env.OPENNEBULA_USERNAME

/-- Resolution of the password, provider.go lines 141 and 170-172. -/
def resolvedPassword (config : opennebulaProviderModel) (env : Env) : String :=
  if !config.Password.isNull then config.Password.valueString
  else env.OPENNEBULA_PASSWORD

/-- Resolution of the insecure flag, provider.go lines 143-156 and
174-176: a non-null declared value (its `ValueBool`, which is
`false` for an unknown value) overrides the environment-derived
boolean. -/
def resolvedInsecure (config : opennebulaProviderModel) (env : Env) : Bool :=
  if !config.Insecure.isNull then config.Insecure.valueBool
  else insecureEnvValue env

/-- The missing-required-field diagnostics of provider.go lines 181-209,
in source order, collected without early return. -/
def missingDiags (endpoint username password : String) : List Diagnostic :=
  (if endpoint = "" then [missingEndpointDiag] else [])
    ++ (if username = "" then [missingUsernameDiag] else [])
    ++ (if password = "" then [missingPasswordDiag] else [])

/-- All diagnostics accumulated when `Configure` reaches the check of
provider.go line 211: decode diagnostics, unknown-value diagnostics
(empty at this point), the insecure-parse diagnostic if any, and
the missing-required-field diagnostics. -/
def stage3Diags (req : ConfigureRequest) : List Diagnostic :=
  req.decodeDiags ++ unknownDiags req.config ++ insecureEnvDiags req.env
    ++ missingDiags (resolvedEndpoint req.config req.env)
      (resolvedUsername req.config req.env)
      (resolvedPassword req.config req.env)

/-- The primary client built in provider.go lines 215-223. -/
def buildClient (req : ConfigureRequest) : ClientConfig :=
  { username := resolvedUsername req.config req.env
    password := resolvedPassword req.config req.env
    endpoint := resolvedEndpoint req.config req.env
    insecure := resolvedInsecure req.config req.env }

/-- The controller composition of provider.go lines 251-260: a flow
client is attached exactly when the resolved flow endpoint is
non-empty. -/
def buildController (req : ConfigureRequest) : Controller :=
  if 0 < (resolvedFlowEndpoint req.config req.env).length then
    Controller.withFlow (buildClient req)
      { username := resolvedUsername req.config req.env
        password := resolvedPassword req.config req.env
        endpoint := resolvedFlowEndpoint req.config req.env }
  else
    Controller.plain (buildClient req)

/-- The session assembled in provider.go lines 244-279.  The guard
`len(tags.Elements) > 0` of line 276 is the identity on the tag
mapping (assigning an empty map equals leaving the nil map). -/
def buildSession (req : ConfigureRequest) (v : GoVersion) : Provider :=
  { oneVersion := v
    controller := buildController req
    defaultTags := aggregateTags req.config.DefaultTags }

/-- The `Configure` method of provider.go lines 95-286, stage by stage:
abort after the decode (line 100), after the unknown-value checks
(line 131), after the insecure parse plus required-field validation
(line 211), on a failing version query (line 231), on a failing
version parse (line 239); otherwise assemble the session and assign
it to both response fields (lines 283-284). -/
def Configure (req : ConfigureRequest) : ConfigureResponse :=
  if hasError req.decodeDiags then
    { diagnostics := req.decodeDiags, dataSourceData := none, resourceData := none }
  else if hasError (req.decodeDiags ++ unknownDiags req.config) then
    { diagnostics := req.decodeDiags ++ unknownDiags req.config
      dataSourceData := none, resourceData := none }
  else if hasError (stage3Diags req) then
    { diagnostics := stage3Diags req, dataSourceData := none, resourceData := none }
  else
    match req.systemVersion with
    | Except.error e =>
      { diagnostics := stage3Diags req ++ [versionQueryDiag e]
        dataSourceData := none, resourceData := none }
    | Except.ok versionStr =>
      match req.newVersion versionStr with
      | Except.error e =>
        { diagnostics := stage3Diags req ++ [versionParseDiag e]
          dataSourceData := none, resourceData := none }
      | Except.ok version =>
        { diagnostics := stage3Diags req
          dataSourceData := some (buildSession req version)
          resourceData := some (buildSession req version) }

/-! ## Concrete requests used to evaluate the pipeline -/

/-- Declared endpoint set, declared flow_endpoint null, flow environment
variable set: the input on which the source's flow-endpoint resolution
is evaluated. -/
def flowBugRequest : ConfigureRequest :=
  { decodeDiags := []
    config :=
      { Endpoint := TString.value "https://one.example:2633/RPC2"
        FlowEndpoint := TString.null
        Username := TString.value "oneadmin"
        Password := TString.value "opennebula"
        Insecure := TBool.null
        DefaultTags := [] }
    env :=
      { OPENNEBULA_ENDPOINT := ""
        OPENNEBULA_FLOW_ENDPOINT := "https://flow.example:2474"
        OPENNEBULA_USERNAME := ""
        OPENNEBULA_PASSWORD := ""
        OPENNEBULA_INSECURE := "" }
    systemVersion := Except.ok "6.8.0"
    newVersion := fun s => Except.ok { raw := s } }

/-- Endpoint and username resolve non-empty, password resolves empty:
the input on which the missing-password diagnostic is evaluated. -/
def passwordPathRequest : ConfigureRequest :=
  { decodeDiags := []
    config :=
      { Endpoint := TString.value "https://one.example:2633/RPC2"
        FlowEndpoint := TString.null
        Username := TString.value "oneadmin"
        Password := TString.null
        Insecure := TBool.null
        DefaultTags := [] }
    env :=
      { OPENNEBULA_ENDPOINT := ""
        OPENNEBULA_FLOW_ENDPOINT := ""
        OPENNEBULA_USERNAME := ""
        OPENNEBULA_PASSWORD := ""
        OPENNEBULA_INSECURE := "" }
    systemVersion := Except.ok "6.8.0"
    newVersion := fun s => Except.ok { raw := s } }

/-- Endpoint and password both resolve empty, username resolves
non-empty. -/
def twoMissingRequest : ConfigureRequest :=
  { decodeDiags := []
    config :=
      { Endpoint := TString.null
        FlowEndpoint := TString.null
        Username := TString.value "oneadmin"
        Password := TString.null
        Insecure := TBool.null
        DefaultTags := [] }
    env :=
      { OPENNEBULA_ENDPOINT := ""
        OPENNEBULA_FLOW_ENDPOINT := ""
        OPENNEBULA_USERNAME := ""
        OPENNEBULA_PASSWORD := ""
        OPENNEBULA_INSECURE := "" }
    systemVersion := Except.ok "6.8.0"
    newVersion := fun s => Except.ok { raw := s } }

/-- Declared endpoint and password in the unknown state. -/
def unknownFieldsRequest : ConfigureRequest :=
  { decodeDiags := []
    config :=
      { Endpoint := TString.unknown
        FlowEndpoint := TString.null
        Username := TString.value "oneadmin"
        Password := TString.unknown
        Insecure := TBool.null
        DefaultTags := [] }
    env :=
      { OPENNEBULA_ENDPOINT := ""
        OPENNEBULA_FLOW_ENDPOINT := ""
        OPENNEBULA_USERNAME := ""
        OPENNEBULA_PASSWORD := ""
        OPENNEBULA_INSECURE := "" }
    systemVersion := Except.ok "6.8.0"
    newVersion := fun s => Except.ok { raw := s } }

/-- A complete declared configuration together with a non-empty
`OPENNEBULA_INSECURE` value that is not a canonical boolean literal. -/
def badInsecureRequest : ConfigureRequest :=
  { decodeDiags := []
    config :=
      { Endpoint := TString.value "https://one.example:2633/RPC2"
        FlowEndpoint := TString.null
        Username := TString.value "oneadmin"
        Password := TString.value "opennebula"
        Insecure := TBool.null
        DefaultTags := [] }
    env :=
      { OPENNEBULA_ENDPOINT := ""
        OPENNEBULA_FLOW_ENDPOINT := ""
        OPENNEBULA_USERNAME := ""
        OPENNEBULA_PASSWORD := ""
        OPENNEBULA_INSECURE := "yes" }
    systemVersion := Except.ok "6.8.0"
    newVersion := fun s => Except.ok { raw := s } }

/-- A complete declared configuration whose version query fails. -/
def versionFailRequest : ConfigureRequest :=
  { decodeDiags := []
    config :=
      { Endpoint := TString.value "https://one.example:2633/RPC2"
        FlowEndpoint := TString.null
        Username := TString.value "oneadmin"
        Password := TString.value "opennebula"
        Insecure := TBool.null
        DefaultTags := [] }
    env :=
      { OPENNEBULA_ENDPOINT := ""
        OPENNEBULA_FLOW_ENDPOINT := ""
        OPENNEBULA_USERNAME := ""
        OPENNEBULA_PASSWORD := ""
        OPENNEBULA_INSECURE := "" }
    systemVersion := Except.error "connection refused"
    newVersion := fun s => Except.ok { raw := s } }

/-- A complete declared configuration whose version query succeeds with
a string the version parse rejects. -/
def versionParseFailRequest : ConfigureRequest :=
  { decodeDiags := []
    config :=
      { Endpoint := TString.value "https://one.example:2633/RPC2"
        FlowEndpoint := TString.null
        Username := TString.value "oneadmin"
        Password := TString.value "opennebula"
        Insecure := TBool.null
        DefaultTags := [] }
    env :=
      { OPENNEBULA_ENDPOINT := ""
        OPENNEBULA_FLOW_ENDPOINT := ""
        OPENNEBULA_USERNAME := ""
        OPENNEBULA_PASSWORD := ""
        OPENNEBULA_INSECURE := "" }
    systemVersion := Except.ok "garbage"
    newVersion := fun _ => Except.error "Malformed version: garbage" }

/-- A request whose config decode produced an error diagnostic. -/
def decodeErrRequest : ConfigureRequest :=
  { decodeDiags :=
      [{ severity := Severity.error
         path := none
         summary := "Unable to decode configuration"
         detail := "the declared configuration did not match the schema" }]
    config :=
      { Endpoint := TString.value "https://one.example:2633/RPC2"
        FlowEndpoint := TString.null
        Username := TString.value "oneadmin"
        Password := TString.value "opennebula"
        Insecure := TBool.null
        DefaultTags := [] }
    env :=
      { OPENNEBULA_ENDPOINT := ""
        OPENNEBULA_FLOW_ENDPOINT := ""
        OPENNEBULA_USERNAME := ""
        OPENNEBULA_PASSWORD := ""
        OPENNEBULA_INSECURE := "" }
    systemVersion := Except.ok "6.8.0"
    newVersion := fun s => Except.ok { raw := s } }

/-- Declared insecure in the unknown state while `OPENNEBULA_INSECURE`
parses successfully to `true`. -/
def unknownInsecureRequest : ConfigureRequest :=
  { decodeDiags := []
    config :=
      { Endpoint := TString.value "https://one.example:2633/RPC2"
        FlowEndpoint := TString.null
        Username := TString.value "oneadmin"
        Password := TString.value "opennebula"
        Insecure := TBool.unknown
        DefaultTags := [] }
    env :=
      { OPENNEBULA_ENDPOINT := ""
        OPENNEBULA_FLOW_ENDPOINT := ""
        OPENNEBULA_USERNAME := ""
        OPENNEBULA_PASSWORD := ""
        OPENNEBULA_INSECURE := "true" }
    systemVersion := Except.ok "6.8.0"
    newVersion := fun s => Except.ok { raw := s } }

/-! ## General lemmas about the pipeline -/

theorem hasError_append (a b : List Diagnostic) :
    hasError (a ++ b) = (hasError a || hasError b) := by
  simp [hasError, List.any_append]

theorem hasError_nil : hasError [] = false := rfl

theorem not_mem_of_hasError_eq_false {l : List Diagnostic} {d : Diagnostic}
    (h : hasError l = false) (hd : d.severity = Severity.error) : d ∉ l := by
  intro hm
  have ht : hasError l = true := by
    unfold hasError
    exact List.any_eq_true.mpr ⟨d, hm, by simp [hd]⟩
  rw [ht] at h
  exact Bool.true_eq_false.mp h

theorem hasError_unknownDiags (config : opennebulaProviderModel)
    (h : config.Endpoint.isUnknown = true ∨ config.Username.isUnknown = true
      ∨ config.Password.isUnknown = true) :
    hasError (unknownDiags config) = true := by
  unfold unknownDiags
  rcases h with h | h | h <;>
    simp [h, hasError_append, hasError, unknownEndpointDiag, unknownUsernameDiag,
      unknownPasswordDiag]

theorem mem_insecureEnvDiags {env : Env} {d : Diagnostic}
    (h : d ∈ insecureEnvDiags env) : d = insecureParseDiag := by
  unfold insecureEnvDiags at h
  split at h
  · split at h
    · simp at h
    · simpa using h
  · simp at h

theorem mem_missingDiags {d : Diagnostic} {e u p : String} :
    d ∈ missingDiags e u p ↔
      (d = missingEndpointDiag ∧ e = "") ∨ (d = missingUsernameDiag ∧ u = "")
        ∨ (d = missingPasswordDiag ∧ p = "") := by
  unfold missingDiags
  by_cases he : e = "" <;> by_cases hu : u = "" <;> by_cases hp : p = "" <;>
    simp [he, hu, hp]

theorem configure_diagnostics_shape (req : ConfigureRequest) :
    (Configure req).diagnostics =
      if hasError req.decodeDiags then req.decodeDiags
      else if hasError (req.decodeDiags ++ unknownDiags req.config) then
        req.decodeDiags ++ unknownDiags req.config
      else if hasError (stage3Diags req) then stage3Diags req
      else
        match req.systemVersion with
        | Except.error e => stage3Diags req ++ [versionQueryDiag e]
        | Except.ok s =>
          match req.newVersion s with
          | Except.error e => stage3Diags req ++ [versionParseDiag e]
          | Except.ok _ => stage3Diags req := by
  unfold Configure
  repeat' split
  all_goals rfl

theorem configure_dataSourceData_shape (req : ConfigureRequest) :
    (Configure req).dataSourceData =
      if hasError req.decodeDiags then none
      else if hasError (req.decodeDiags ++ unknownDiags req.config) then none
      else if hasError (stage3Diags req) then none
      else
        match req.systemVersion with
        | Except.error _ => none
        | Except.ok s =>
          match req.newVersion s with
          | Except.error _ => none
          | Except.ok v => some (buildSession req v) := by
  unfold Configure
  repeat' split
  all_goals rfl

theorem configure_resourceData_eq (req : ConfigureRequest) :
    (Configure req).resourceData = (Configure req).dataSourceData := by
  unfold Configure
  repeat' split
  all_goals rfl

theorem configure_isSome (req : ConfigureRequest) :
    (Configure req).dataSourceData.isSome =
      (!hasError req.decodeDiags
        && !hasError (req.decodeDiags ++ unknownDiags req.config)
        && !hasError (stage3Diags req)
        && (match req.systemVersion with
            | Except.error _ => false
            | Except.ok s =>
              match req.newVersion s with
              | Except.error _ => false
              | Except.ok _ => true)) := by
  unfold Configure
  repeat' split
  all_goals simp_all

theorem hasError_missingDiags (e u p : String)
    (h : e = "" ∨ u = "" ∨ p = "") :
    hasError (missingDiags e u p) = true := by
  unfold missingDiags
  have hA : (missingEndpointDiag.severity == Severity.error) = true := rfl
  have hB : (missingUsernameDiag.severity == Severity.error) = true := rfl
  have hC : (missingPasswordDiag.severity == Severity.error) = true := rfl
  rcases h with h | h | h <;> rw [h] <;>
    simp [hasError, hA, hB, hC]

theorem ne_versionQueryDiag_of_summary {d : Diagnostic}
    (h : d.summary ≠ "Failed to get OpenNebula release number") :
    ∀ e, d ≠ versionQueryDiag e := by
  intro e he
  exact h (by rw [he]; rfl)

theorem ne_versionParseDiag_of_summary {d : Diagnostic}
    (h : d.summary ≠ "Failed to parse OpenNebula version") :
    ∀ e, d ≠ versionParseDiag e := by
  intro e he
  exact h (by rw [he]; rfl)

theorem mem_configure_diags_iff (req : ConfigureRequest) (d : Diagnostic)
    (h1 : hasError req.decodeDiags = false)
    (h2 : unknownDiags req.config = [])
    (hd : d.severity = Severity.error)
    (hni : d ≠ insecureParseDiag)
    (hnq : ∀ e, d ≠ versionQueryDiag e)
    (hnp : ∀ e, d ≠ versionParseDiag e) :
    d ∈ (Configure req).diagnostics ↔
      d ∈ missingDiags (resolvedEndpoint req.config req.env)
        (resolvedUsername req.config req.env)
        (resolvedPassword req.config req.env) := by
  have hnd : d ∉ req.decodeDiags := not_mem_of_hasError_eq_false h1 hd
  have hne : d ∉ insecureEnvDiags req.env := fun hm => hni (mem_insecureEnvDiags hm)
  have h12 : hasError (req.decodeDiags ++ unknownDiags req.config) = false := by
    rw [h2]
    simpa [hasError_append, hasError_nil] using h1
  have hstage : d ∈ stage3Diags req ↔
      d ∈ missingDiags (resolvedEndpoint req.config req.env)
        (resolvedUsername req.config req.env)
        (resolvedPassword req.config req.env) := by
    unfold stage3Diags
    rw [h2]
    simp only [List.append_nil, List.mem_append]
    constructor
    · rintro ((hm | hm) | hm)
      · exact absurd hm hnd
      · exact absurd hm hne
      · exact hm
    · intro hm
      exact Or.inr hm
  rw [configure_diagnostics_shape]
  by_cases h3 : hasError (stage3Diags req) = true
  · simp only [h1, h12, h3, Bool.false_eq_true, if_false, if_true]
    exact hstage
  · simp only [h1, h12, h3, Bool.false_eq_true, if_false]
    cases hv : req.systemVersion with
    | error e =>
      simp only [List.mem_append, List.mem_singleton, hnq e, or_false]
      exact hstage
    | ok s =>
      show d ∈ (match req.newVersion s with
        | Except.error e => stage3Diags req ++ [versionParseDiag e]
        | Except.ok _ => stage3Diags req) ↔
          d ∈ missingDiags (resolvedEndpoint req.config req.env)
            (resolvedUsername req.config req.env)
            (resolvedPassword req.config req.env)
      cases hp : req.newVersion s with
      | error e =>
        simp only [List.mem_append, List.mem_singleton, hnp e, or_false]
        exact hstage
      | ok v =>
        exact hstage

theorem mem_missingDiags_endpoint (e u p : String) :
    missingEndpointDiag ∈ missingDiags e u p ↔ e = "" := by
  rw [mem_missingDiags]
  simp [show missingEndpointDiag ≠ missingUsernameDiag from by decide,
    show missingEndpointDiag ≠ missingPasswordDiag from by decide]

theorem mem_missingDiags_username (e u p : String) :
    missingUsernameDiag ∈ missingDiags e u p ↔ u = "" := by
  rw [mem_missingDiags]
  simp [show missingUsernameDiag ≠ missingEndpointDiag from by decide,
    show missingUsernameDiag ≠ missingPasswordDiag from by decide]

theorem mem_missingDiags_password (e u p : String) :
    missingPasswordDiag ∈ missingDiags e u p ↔ p = "" := by
  rw [mem_missingDiags]
  simp [show missingPasswordDiag ≠ missingEndpointDiag from by decide,
    show missingPasswordDiag ≠ missingUsernameDiag from by decide]

theorem errorFilter_nil {l : List Diagnostic} (h : hasError l = false) :
    l.filter (fun d => d.severity == Severity.error) = [] := by
  rw [List.filter_eq_nil_iff]
  intro d hd hf
  have ht : hasError l = true := List.any_eq_true.mpr ⟨d, hd, hf⟩
  rw [ht] at h
  exact Bool.true_eq_false.mp h

theorem buildController_client (req : ConfigureRequest) :
    (buildController req).client = buildClient req := by
  unfold buildController
  split
  all_goals rfl

/-! ## Lemmas about tag aggregation -/

theorem blockLookup_cons (p : String × String) (rest : List (String × String)) (k : String) :
    blockLookup (p :: rest) k =
      match blockLookup rest k with
      | some v => some v
      | none => if p.1 == k then some p.2 else none := rfl

theorem specLookup_cons (b : TagBlock) (rest : List TagBlock) (k : String) :
    specLookup (b :: rest) k =
      match specLookup rest k with
      | some v => some v
      | none =>
        match b with
        | TagBlock.ok m => blockLookup m k
        | _ => none := rfl

theorem mergeTags_apply (m : List (String × String)) (acc : TagMap) (k : String) :
    mergeTags acc m k =
      match blockLookup m k with
      | some v => some v
      | none => acc k := by
  induction m generalizing acc with
  | nil => rfl
  | cons p rest ih =>
    show mergeTags (fun k' => if p.1 == k' then some p.2 else acc k') rest k = _
    rw [ih, blockLookup_cons]
    cases hbl : blockLookup rest k with
    | some v => rfl
    | none =>
      by_cases h : (p.1 == k) = true <;> simp [h]

theorem aggregateTags_go (blocks : List TagBlock) (acc : TagMap) (k : String) :
    blocks.foldl
      (fun acc b =>
        match b with
        | TagBlock.decodeErr _ => acc
        | TagBlock.convertErr _ => acc
        | TagBlock.ok m => mergeTags acc m) acc k =
      match specLookup blocks k with
      | some v => some v
      | none => acc k := by
  induction blocks generalizing acc with
  | nil => rfl
  | cons b rest ih =>
    cases b with
    | decodeErr msg =>
      show List.foldl _ acc rest k = _
      rw [ih, specLookup_cons]
      cases specLookup rest k <;> rfl
    | convertErr msg =>
      show List.foldl _ acc rest k = _
      rw [ih, specLookup_cons]
      cases specLookup rest k <;> rfl
    | ok m =>
      show List.foldl _ (mergeTags acc m) rest k = _
      rw [ih, specLookup_cons]
      cases hs : specLookup rest k with
      | some v => rfl
      | none =>
        rw [mergeTags_apply]

theorem aggregateTags_eq_specLookup (blocks : List TagBlock) (k : String) :
    aggregateTags blocks k = specLookup blocks k := by
  have h := aggregateTags_go blocks emptyTagMap k
  unfold aggregateTags
  rw [h]
  cases specLookup blocks k <;> rfl

/-! ## The claims -/

/-- Claim C1: every configuration field should resolve as declared value
(if non-null and known) over environment variable over built-in
default, with the resolved flow endpoint reading the declared
flow_endpoint field.  The code violates the flow-endpoint part: it
reads the declared *endpoint* field in the flow-endpoint fallback
(provider.go lines 162-164).  On a request with the endpoint
declared, flow_endpoint null and OPENNEBULA_FLOW_ENDPOINT set, the
flow endpoint resolves to the declared endpoint value, the
environment flow value is discarded, and the flow client is built
against the primary endpoint. -/
theorem claim1_flow_endpoint_resolution :
    resolvedFlowEndpoint flowBugRequest.config flowBugRequest.env
        = "https://one.example:2633/RPC2"
      ∧ flowBugRequest.config.FlowEndpoint = TString.null
      ∧ flowBugRequest.env.OPENNEBULA_FLOW_ENDPOINT = "https://flow.example:2474"
      ∧ resolvedFlowEndpoint flowBugRequest.config flowBugRequest.env
          ≠ flowBugRequest.env.OPENNEBULA_FLOW_ENDPOINT
      ∧ (Configure flowBugRequest).dataSourceData
          = some (buildSession flowBugRequest { raw := "6.8.0" })
      ∧ (buildSession flowBugRequest { raw := "6.8.0" }).controller
          = Controller.withFlow
              { username := "oneadmin", password := "opennebula"
                endpoint := "https://one.example:2633/RPC2", insecure := false }
              { username := "oneadmin", password := "opennebula"
                endpoint := "https://one.example:2633/RPC2" } :=
  ⟨rfl, rfl, rfl, by decide, rfl, rfl⟩

/-- Claim C2: the aggregated default tags are the per-key union of the
declared blocks folded left-to-right, a later block's entry
overwriting an earlier block's entry exactly on key collision, with
blocks that fail to decode skipped; the example blocks
`[{a:1,b:2},{b:3}]` yield `{a:1,b:3}`; and the block list never
influences the diagnostics or whether a session is produced. -/
theorem claim2_default_tags_aggregation :
    (∀ blocks k, aggregateTags blocks k = specLookup blocks k)
      ∧ aggregateTags [TagBlock.ok [("a", "1"), ("b", "2")], TagBlock.ok [("b", "3")]] "a"
          = some "1"
      ∧ aggregateTags [TagBlock.ok [("a", "1"), ("b", "2")], TagBlock.ok [("b", "3")]] "b"
          = some "3"
      ∧ aggregateTags [TagBlock.convertErr "malformed", TagBlock.ok [("x", "9")]] "x"
          = some "9"
      ∧ (∀ req blocks,
          (Configure req).diagnostics
              = (Configure
                  { req with
                    config := { req.config with DefaultTags := blocks } }).diagnostics
            ∧ (Configure req).dataSourceData.isSome
                = (Configure
                    { req with
                      config :=
                        { req.config with DefaultTags := blocks } }).dataSourceData.isSome) := by
  refine ⟨aggregateTags_eq_specLookup, rfl, rfl, rfl, ?_⟩
  intro req blocks
  constructor
  · rw [configure_diagnostics_shape, configure_diagnostics_shape]
    rfl
  · rw [configure_isSome, configure_isSome]
    rfl

/-- Claim C3: each empty required field should yield one error
diagnostic scoped to that same field's attribute path.  The code
violates this for the password: on a request whose password alone
resolves empty, exactly one diagnostic is produced and its path is
"endpoint" (provider.go line 203), not "password". -/
theorem claim3_password_diagnostic_path :
    (Configure passwordPathRequest).diagnostics = [missingPasswordDiag]
      ∧ missingPasswordDiag.path = some "endpoint"
      ∧ missingPasswordDiag.path ≠ some "password"
      ∧ missingPasswordDiag.summary = "Missing OpenNebula account password"
      ∧ (Configure passwordPathRequest).dataSourceData = none :=
  ⟨rfl, rfl, by decide, rfl, rfl⟩

/-- Claim C4: for a decoded configuration with no unknown required
field, a missing-field diagnostic appears exactly for each required
field that resolves empty — all of them together in one pass — and
the pipeline aborts with no session only after all checks. -/
theorem claim4_all_missing_reported (req : ConfigureRequest)
    (h1 : hasError req.decodeDiags = false)
    (h2 : unknownDiags req.config = []) :
    (missingEndpointDiag ∈ (Configure req).diagnostics
        ↔ resolvedEndpoint req.config req.env = "")
      ∧ (missingUsernameDiag ∈ (Configure req).diagnostics
        ↔ resolvedUsername req.config req.env = "")
      ∧ (missingPasswordDiag ∈ (Configure req).diagnostics
        ↔ resolvedPassword req.config req.env = "")
      ∧ ((resolvedEndpoint req.config req.env = ""
            ∨ resolvedUsername req.config req.env = ""
            ∨ resolvedPassword req.config req.env = "") →
          (Configure req).dataSourceData = none
            ∧ (Configure req).resourceData = none) := by
  have hE := mem_configure_diags_iff req missingEndpointDiag h1 h2 rfl (by decide)
    (ne_versionQueryDiag_of_summary (by decide))
    (ne_versionParseDiag_of_summary (by decide))
  have hU := mem_configure_diags_iff req missingUsernameDiag h1 h2 rfl (by decide)
    (ne_versionQueryDiag_of_summary (by decide))
    (ne_versionParseDiag_of_summary (by decide))
  have hP := mem_configure_diags_iff req missingPasswordDiag h1 h2 rfl (by decide)
    (ne_versionQueryDiag_of_summary (by decide))
    (ne_versionParseDiag_of_summary (by decide))
  refine ⟨hE.trans (mem_missingDiags_endpoint _ _ _),
    hU.trans (mem_missingDiags_username _ _ _),
    hP.trans (mem_missingDiags_password _ _ _), ?_⟩
  intro hempty
  have h12 : hasError (req.decodeDiags ++ unknownDiags req.config) = false := by
    rw [h2]
    simpa [hasError_append, hasError_nil] using h1
  have h3 : hasError (stage3Diags req) = true := by
    unfold stage3Diags
    rw [hasError_append, hasError_missingDiags _ _ _ hempty, Bool.or_true]
  constructor
  · rw [configure_dataSourceData_shape]
    simp [h1, h12, h3]
  · rw [configure_resourceData_eq, configure_dataSourceData_shape]
    simp [h1, h12, h3]

/-- Witness for C4: endpoint and password resolve empty, username does
not — the two missing-field diagnostics are both reported, the
username one is not, and the response is exactly those two
diagnostics. -/
theorem claim4_witness :
    hasError twoMissingRequest.decodeDiags = false
      ∧ unknownDiags twoMissingRequest.config = []
      ∧ resolvedEndpoint twoMissingRequest.config twoMissingRequest.env = ""
      ∧ resolvedPassword twoMissingRequest.config twoMissingRequest.env = ""
      ∧ resolvedUsername twoMissingRequest.config twoMissingRequest.env ≠ ""
      ∧ missingEndpointDiag ∈ (Configure twoMissingRequest).diagnostics
      ∧ missingPasswordDiag ∈ (Configure twoMissingRequest).diagnostics
      ∧ missingUsernameDiag ∉ (Configure twoMissingRequest).diagnostics
      ∧ (Configure twoMissingRequest).diagnostics
          = [missingEndpointDiag, missingPasswordDiag] := by
  have h := claim4_all_missing_reported twoMissingRequest rfl rfl
  exact ⟨rfl, rfl, rfl, rfl, by decide, h.1.mpr rfl, h.2.2.1.mpr rfl,
    fun hm => absurd (h.2.1.mp hm) (by decide), rfl⟩

/-- Claim C5: whenever a required field's declared value is unknown,
Configure reports an error diagnostic scoped to each such field —
all unknown required fields together — and produces no session. -/
theorem claim5_unknown_required_fields (req : ConfigureRequest)
    (h1 : hasError req.decodeDiags = false)
    (hu : req.config.Endpoint.isUnknown = true
      ∨ req.config.Username.isUnknown = true
      ∨ req.config.Password.isUnknown = true) :
    (req.config.Endpoint.isUnknown = true →
        unknownEndpointDiag ∈ (Configure req).diagnostics)
      ∧ (req.config.Username.isUnknown = true →
        unknownUsernameDiag ∈ (Configure req).diagnostics)
      ∧ (req.config.Password.isUnknown = true →
        unknownPasswordDiag ∈ (Configure req).diagnostics)
      ∧ unknownEndpointDiag.path = some "endpoint"
      ∧ unknownUsernameDiag.path = some "username"
      ∧ unknownPasswordDiag.path = some "password"
      ∧ (Configure req).dataSourceData = none
      ∧ (Configure req).resourceData = none := by
  have h2 : hasError (req.decodeDiags ++ unknownDiags req.config) = true := by
    rw [hasError_append, hasError_unknownDiags req.config hu, Bool.or_true]
  have hdiag : (Configure req).diagnostics
      = req.decodeDiags ++ unknownDiags req.config := by
    rw [configure_diagnostics_shape]
    simp [h1, h2]
  have hds : (Configure req).dataSourceData = none := by
    rw [configure_dataSourceData_shape]
    simp [h1, h2]
  refine ⟨?_, ?_, ?_, rfl, rfl, rfl, hds,
    by rw [configure_resourceData_eq]; exact hds⟩
  all_goals intro h
  all_goals rw [hdiag]
  all_goals unfold unknownDiags
  all_goals simp [h]

/-- Witness for C5: endpoint and password declared unknown — both
unknown-value diagnostics appear and no session is produced. -/
theorem claim5_witness :
    unknownFieldsRequest.config.Endpoint.isUnknown = true
      ∧ unknownFieldsRequest.config.Password.isUnknown = true
      ∧ unknownEndpointDiag ∈ (Configure unknownFieldsRequest).diagnostics
      ∧ unknownPasswordDiag ∈ (Configure unknownFieldsRequest).diagnostics
      ∧ (Configure unknownFieldsRequest).dataSourceData = none := by
  have h := claim5_unknown_required_fields unknownFieldsRequest rfl (Or.inl rfl)
  exact ⟨rfl, rfl, h.1 rfl, h.2.2.1 rfl, h.2.2.2.2.2.2.1⟩

/-- Claim C6: a non-empty `OPENNEBULA_INSECURE` value that is not a
canonical boolean literal yields an error diagnostic scoped to the
insecure field, the effective insecure flag is false when no
non-null declared value overrides it, required-field validation
still runs in full (the missing-endpoint diagnostic appears exactly
when the endpoint resolves empty), and the abort happens at the
end-of-pipeline diagnostics check with no session. -/
theorem claim6_malformed_insecure_env (req : ConfigureRequest)
    (h1 : hasError req.decodeDiags = false)
    (h2 : unknownDiags req.config = [])
    (h3 : 0 < req.env.OPENNEBULA_INSECURE.length)
    (h4 : parseBool req.env.OPENNEBULA_INSECURE = Except.error ()) :
    insecureParseDiag ∈ (Configure req).diagnostics
      ∧ insecureParseDiag.path = some "insecure"
      ∧ (req.config.Insecure.isNull = true →
          resolvedInsecure req.config req.env = false)
      ∧ (missingEndpointDiag ∈ (Configure req).diagnostics
          ↔ resolvedEndpoint req.config req.env = "")
      ∧ (Configure req).dataSourceData = none
      ∧ (Configure req).resourceData = none := by
  have henv : insecureEnvDiags req.env = [insecureParseDiag] := by
    unfold insecureEnvDiags
    rw [if_pos h3, h4]
  have h12 : hasError (req.decodeDiags ++ unknownDiags req.config) = false := by
    rw [h2]
    simpa [hasError_append, hasError_nil] using h1
  have hone : hasError [insecureParseDiag] = true := rfl
  have hs3 : hasError (stage3Diags req) = true := by
    unfold stage3Diags
    rw [hasError_append, hasError_append, henv]
    simp [hone]
  have hdiag : (Configure req).diagnostics = stage3Diags req := by
    rw [configure_diagnostics_shape]
    simp [h1, h12, hs3]
  have hds : (Configure req).dataSourceData = none := by
    rw [configure_dataSourceData_shape]
    simp [h1, h12, hs3]
  refine ⟨?_, rfl, ?_, ?_, hds, by rw [configure_resourceData_eq]; exact hds⟩
  · rw [hdiag]
    unfold stage3Diags
    rw [henv, h2]
    simp
  · intro hnull
    have hval : insecureEnvValue req.env = false := by
      unfold insecureEnvValue
      rw [if_pos h3, h4]
    unfold resolvedInsecure
    rw [hnull, hval]
    simp
  · exact (mem_configure_diags_iff req missingEndpointDiag h1 h2 rfl (by decide)
      (ne_versionQueryDiag_of_summary (by decide))
      (ne_versionParseDiag_of_summary (by decide))).trans
      (mem_missingDiags_endpoint _ _ _)

/-- Witness for C6: `OPENNEBULA_INSECURE="yes"` with a complete declared
configuration — the insecure diagnostic appears, the effective flag
is false, and no session is produced. -/
theorem claim6_witness :
    0 < badInsecureRequest.env.OPENNEBULA_INSECURE.length
      ∧ parseBool badInsecureRequest.env.OPENNEBULA_INSECURE = Except.error ()
      ∧ insecureParseDiag ∈ (Configure badInsecureRequest).diagnostics
      ∧ resolvedInsecure badInsecureRequest.config badInsecureRequest.env = false
      ∧ (Configure badInsecureRequest).dataSourceData = none := by
  have h := claim6_malformed_insecure_env badInsecureRequest rfl rfl (by decide) rfl
  exact ⟨by decide, rfl, h.1, h.2.2.1 rfl, h.2.2.2.2.1⟩

/-- Claim C7: once the pipeline reaches the version stage, a failing
version query and a failing version parse each add exactly one
error diagnostic carrying the underlying failure detail and return
immediately with no session. -/
theorem claim7_version_failures (req : ConfigureRequest)
    (h1 : hasError req.decodeDiags = false)
    (h2 : unknownDiags req.config = [])
    (h3 : insecureEnvDiags req.env = [])
    (h4 : resolvedEndpoint req.config req.env ≠ "")
    (h5 : resolvedUsername req.config req.env ≠ "")
    (h6 : resolvedPassword req.config req.env ≠ "") :
    (∀ e, req.systemVersion = Except.error e →
        (Configure req).diagnostics = req.decodeDiags ++ [versionQueryDiag e]
          ∧ ((Configure req).diagnostics.filter
              (fun d => d.severity == Severity.error)).length = 1
          ∧ (Configure req).dataSourceData = none
          ∧ (Configure req).resourceData = none)
      ∧ (∀ s e, req.systemVersion = Except.ok s →
          req.newVersion s = Except.error e →
        (Configure req).diagnostics = req.decodeDiags ++ [versionParseDiag e]
          ∧ ((Configure req).diagnostics.filter
              (fun d => d.severity == Severity.error)).length = 1
          ∧ (Configure req).dataSourceData = none
          ∧ (Configure req).resourceData = none) := by
  have hmiss : missingDiags (resolvedEndpoint req.config req.env)
      (resolvedUsername req.config req.env)
      (resolvedPassword req.config req.env) = [] := by
    unfold missingDiags
    rw [if_neg h4, if_neg h5, if_neg h6]
    rfl
  have hstage : stage3Diags req = req.decodeDiags := by
    unfold stage3Diags
    rw [h2, h3, hmiss]
    simp
  have h12 : hasError (req.decodeDiags ++ unknownDiags req.config) = false := by
    rw [h2]
    simpa [hasError_append, hasError_nil] using h1
  have hs3 : hasError (stage3Diags req) = false := by
    rw [hstage]
    exact h1
  constructor
  · intro e hv
    have hdiag : (Configure req).diagnostics
        = req.decodeDiags ++ [versionQueryDiag e] := by
      rw [configure_diagnostics_shape]
      simp [h1, h12, hs3, hv, hstage]
    have hds : (Configure req).dataSourceData = none := by
      rw [configure_dataSourceData_shape]
      simp [h1, h12, hs3, hv]
    refine ⟨hdiag, ?_, hds, by rw [configure_resourceData_eq]; exact hds⟩
    rw [hdiag, List.filter_append, errorFilter_nil h1]
    rfl
  · intro s e hv hp
    have hdiag : (Configure req).diagnostics
        = req.decodeDiags ++ [versionParseDiag e] := by
      rw [configure_diagnostics_shape]
      simp [h1, h12, hs3, hv, hp, hstage]
    have hds : (Configure req).dataSourceData = none := by
      rw [configure_dataSourceData_shape]
      simp [h1, h12, hs3, hv, hp]
    refine ⟨hdiag, ?_, hds, by rw [configure_resourceData_eq]; exact hds⟩
    rw [hdiag, List.filter_append, errorFilter_nil h1]
    rfl

/-- Witness for C7: a failing version query and a failing version parse
on concrete complete configurations — each produces exactly the one
corresponding diagnostic and no session. -/
theorem claim7_witness :
    (Configure versionFailRequest).diagnostics
        = [] ++ [versionQueryDiag "connection refused"]
      ∧ (Configure versionFailRequest).dataSourceData = none
      ∧ (Configure versionParseFailRequest).diagnostics
          = [] ++ [versionParseDiag "Malformed version: garbage"]
      ∧ (Configure versionParseFailRequest).dataSourceData = none := by
  have ha := (claim7_version_failures versionFailRequest rfl rfl rfl
    (by decide) (by decide) (by decide)).1 "connection refused" rfl
  have hb := (claim7_version_failures versionParseFailRequest rfl rfl rfl
    (by decide) (by decide) (by decide)).2 "garbage" "Malformed version: garbage" rfl rfl
  exact ⟨ha.1, ha.2.2.1, hb.1, hb.2.2.1⟩

/-- Claim C8: whenever an error diagnostic exists in the response of
Configure, neither DataSourceData nor ResourceData is assigned — no
partial session is ever exposed. -/
theorem claim8_no_session_on_error (req : ConfigureRequest)
    (h : hasError (Configure req).diagnostics = true) :
    (Configure req).dataSourceData = none
      ∧ (Configure req).resourceData = none := by
  have hds : (Configure req).dataSourceData = none := by
    rw [configure_dataSourceData_shape]
    rw [configure_diagnostics_shape] at h
    by_cases h1 : hasError req.decodeDiags = true
    · simp [h1]
    · by_cases h2 : hasError (req.decodeDiags ++ unknownDiags req.config) = true
      · simp [h1, h2]
      · by_cases h3 : hasError (stage3Diags req) = true
        · simp [h1, h2, h3]
        · simp only [h1, h2, h3, if_false] at h ⊢
          cases hv : req.systemVersion with
          | error e => simp [hv]
          | ok s =>
            simp only [hv] at h ⊢
            cases hp : req.newVersion s with
            | error e => simp [hp]
            | ok v =>
              simp only [hp] at h
              exact absurd h h3
  exact ⟨hds, by rw [configure_resourceData_eq]; exact hds⟩

/-- Witness for C8: a request whose config decode produced an error
diagnostic — the response carries an error and no session. -/
theorem claim8_witness :
    hasError (Configure decodeErrRequest).diagnostics = true
      ∧ (Configure decodeErrRequest).dataSourceData = none
      ∧ (Configure decodeErrRequest).resourceData = none := by
  have h := claim8_no_session_on_error decodeErrRequest rfl
  exact ⟨rfl, h.1, h.2⟩

/-- Claim C10: when the declared insecure value is unknown, Configure
emits no diagnostic for it (the diagnostics equal those of the same
request with a null insecure value), the effective insecure flag is
false regardless of the environment value, and any produced session
has a client with the insecure flag false. -/
theorem claim10_unknown_insecure_silent (req : ConfigureRequest)
    (h : req.config.Insecure.isUnknown = true) :
    resolvedInsecure req.config req.env = false
      ∧ (Configure req).diagnostics
          = (Configure
              { req with
                config := { req.config with Insecure := TBool.null } }).diagnostics
      ∧ (∀ s, (Configure req).dataSourceData = some s →
          s.controller.client.insecure = false) := by
  have hins : req.config.Insecure = TBool.unknown := by
    cases hx : req.config.Insecure with
    | null => rw [hx] at h; simp [TBool.isUnknown] at h
    | unknown => rfl
    | value b => rw [hx] at h; simp [TBool.isUnknown] at h
  have h1 : resolvedInsecure req.config req.env = false := by
    unfold resolvedInsecure
    rw [hins]
    rfl
  refine ⟨h1, ?_, ?_⟩
  · rw [configure_diagnostics_shape, configure_diagnostics_shape]
    rfl
  · intro s hs
    rw [configure_dataSourceData_shape] at hs
    split at hs
    · exact absurd hs (by simp)
    · split at hs
      · exact absurd hs (by simp)
      · split at hs
        · exact absurd hs (by simp)
        · split at hs
          · exact absurd hs (by simp)
          · split at hs
            · exact absurd hs (by simp)
            · have hsv := (Option.some.inj hs).symm
              rw [hsv]
              simp only [buildSession]
              rw [buildController_client]
              simp only [buildClient]
              exact h1

/-- Witness for C10: declared insecure unknown while the environment
variable parses to `true` — the resolved insecure flag is still
false. -/
theorem claim10_witness :
    unknownInsecureRequest.config.Insecure.isUnknown = true
      ∧ parseBool unknownInsecureRequest.env.OPENNEBULA_INSECURE = Except.ok true
      ∧ resolvedInsecure unknownInsecureRequest.config unknownInsecureRequest.env
          = false :=
  ⟨rfl, rfl, (claim10_unknown_insecure_silent unknownInsecureRequest rfl).1⟩

end OpenNebula
